import Mathlib

/-!
Verification of the mkdb lifecycle/expiration core against its specification.

The Go source is shallowly embedded: the persisted SQLite store becomes an
explicit `Store` value, times are integers (Go nanoseconds), runtime (Docker)
calls become an abstract `Runtime` observation plus an explicit list of
emitted `Effect`s, and fallible operations return `Option`/`Except`.
-/

namespace Mkdb

/-- Nanoseconds per hour, as in Go `time.Hour`. -/
def nsPerHour : Int := 3600000000000

/-- Go `database.Container` (internal/database/database.go): one row of the
`containers` table. Timestamps are Go nanosecond ticks. -/
structure Container where
  id : Nat
  name : String
  displayName : String
  dbType : String
  version : String
  containerID : String
  port : String
  status : String
  createdAt : Int
  expiresAt : Int
  volumeType : String
  volumePath : String
  deriving Repr, DecidableEq

/-- Go `database.User`: one row of the `users` table; `contID` is the owning
container's row id (`container_id` column). -/
structure User where
  id : Nat
  contID : Nat
  username : String
  passwordHash : String
  isDefault : Bool
  createdAt : Int
  deriving Repr, DecidableEq

/-- Go `database.Event`: one row of the append-only `events` table. -/
structure Event where
  id : Nat
  contID : Nat
  eventType : String
  timestamp : Int
  details : String
  deriving Repr, DecidableEq

/-- The persisted state store: the three tables created by
`database.Initialize` (containers, users, events). -/
structure Store where
  containers : List Container
  users : List User
  events : List Event
  deriving Repr, DecidableEq

namespace Store

/-- Go `database.CreateContainer`: INSERT INTO containers. -/
def createContainer (s : Store) (c : Container) : Store :=
  { s with containers := s.containers ++ [c] }

/-- Go `database.CreateUser`: INSERT INTO users. -/
def createUser (s : Store) (u : User) : Store :=
  { s with users := s.users ++ [u] }

/-- Go `database.CreateEvent`: INSERT INTO events (append-only). -/
def createEvent (s : Store) (e : Event) : Store :=
  { s with events := s.events ++ [e] }

/-- Go `database.GetContainer`: SELECT ... FROM containers WHERE name = ?. -/
def getContainer (s : Store) (name : String) : Option Container :=
  s.containers.find? (fun c => c.name = name)

/-- Go `database.GetContainerByDisplayName`. -/
def getContainerByDisplayName (s : Store) (displayName : String) : Option Container :=
  s.containers.find? (fun c => c.displayName = displayName)

/-- Go `database.GetDefaultUser`: SELECT ... FROM users WHERE container_id = ?
AND is_default = 1. -/
def getDefaultUser (s : Store) (contID : Nat) : Option User :=
  s.users.find? (fun u => u.contID = contID ∧ u.isDefault = true)

/-- Go `database.UpdateContainer`: UPDATE containers SET container_id, status,
expires_at WHERE id = ?. -/
def updateContainer (s : Store) (c : Container) : Store :=
  { s with containers := s.containers.map (fun x =>
      if x.id = c.id then
        { x with containerID := c.containerID, status := c.status, expiresAt := c.expiresAt }
      else x) }

/-- Go `database.DeleteContainer`: DELETE FROM containers WHERE id = ?.
The schema created by `database.Initialize` declares
`FOREIGN KEY (container_id) REFERENCES containers(id) ON DELETE CASCADE`
on both `users` and `events`, but the program opens the database with a
bare `sql.Open("sqlite", path)` and never issues `PRAGMA foreign_keys`
(enforcement is off by default in SQLite and in the modernc driver), so
the declared cascade never fires: the statement removes only the container
row, and user rows and event rows referencing it stay behind. -/
def deleteContainer (s : Store) (id : Nat) : Store :=
  { s with containers := s.containers.filter (fun c => ¬ c.id = id) }

/-- Go `database.ListContainers`: all rows excluding the obsolete persisted
status value `expired`. -/
def listContainers (s : Store) : List Container :=
  s.containers.filter (fun c => ¬ c.status = "expired")

/-- Go `database.GetExpiredContainers`: rows with `expires_at < now` whose
status is neither `stopped` nor `expired`. -/
def getExpiredContainers (s : Store) (now : Int) : List Container :=
  s.containers.filter (fun c =>
    c.expiresAt < now ∧ ¬ c.status = "stopped" ∧ ¬ c.status = "expired")

/-- A user row is orphaned when no container row carries its `container_id`. -/
def userOrphaned (s : Store) (u : User) : Bool :=
  ¬ s.containers.any (fun c => c.id = u.contID)

/-- An event row is orphaned when no container row carries its `container_id`. -/
def eventOrphaned (s : Store) (e : Event) : Bool :=
  ¬ s.containers.any (fun c => c.id = e.contID)

/-- No user row and no event row of the store is orphaned. -/
def noOrphans (s : Store) : Bool :=
  s.users.all (fun u => ¬ s.userOrphaned u) ∧ s.events.all (fun e => ¬ s.eventOrphaned e)

end Store

/-- Go `cleanup.extendContainer` TTL arithmetic (internal/cleanup/cleanup.go):
if `time.Now().After(c.ExpiresAt)` the new expiry is `now + hours·1h`,
otherwise it is `c.ExpiresAt + hours·1h`. Go `t.After(u)` is `t > u`. -/
def extendExpiresAt (now expiresAt : Int) (hours : Int) : Int :=
  if expiresAt < now then now + hours * nsPerHour
  else expiresAt + hours * nsPerHour

/-- Go `cleanup.extendContainer`: recompute the expiry and write it back
(the store update also appends a `ttl_extended` event). -/
def extendContainer (s : Store) (c : Container) (now : Int) (hours : Int) : Store :=
  let c' := { c with expiresAt := extendExpiresAt now c.expiresAt hours }
  (s.updateContainer c').createEvent
    { id := 0, contID := c.id, eventType := "ttl_extended", timestamp := now,
      details := "TTL extended" }

/-- A Go byte. -/
abbrev Byte := Fin 256

/-- Lowercase hex digit for a nibble, as produced by Go `encoding/hex`. -/
def hexDigitChar (n : Nat) : Char :=
  if n < 10 then Char.ofNat (48 + n) else Char.ofNat (87 + n)

/-- Value of a hex digit character; Go `encoding/hex` accepts both cases. -/
def hexDigitVal (c : Char) : Option (Fin 16) :=
  if h : 48 ≤ c.toNat ∧ c.toNat ≤ 57 then some ⟨c.toNat - 48, by omega⟩
  else if h : 97 ≤ c.toNat ∧ c.toNat ≤ 102 then some ⟨c.toNat - 87, by omega⟩
  else if h : 65 ≤ c.toNat ∧ c.toNat ≤ 70 then some ⟨c.toNat - 55, by omega⟩
  else none

/-- Go `hex.EncodeToString`, character list: two lowercase digits per byte. -/
def hexEncodeBytes : List Byte → List Char
  | [] => []
  | b :: rest => hexDigitChar (b.val / 16) :: hexDigitChar (b.val % 16) :: hexEncodeBytes rest

/-- Go `hex.EncodeToString`. -/
def hexEncode (bs : List Byte) : String :=
  String.mk (hexEncodeBytes bs)

/-- Go `hex.DecodeString`, character list: fails on odd length or on any
non-hex character. -/
def hexDecodeChars : List Char → Option (List Byte)
  | [] => some []
  | [_] => none
  | c1 :: c2 :: rest =>
    match hexDigitVal c1, hexDigitVal c2, hexDecodeChars rest with
    | some hi, some lo, some tail =>
      some (⟨hi.val * 16 + lo.val, by have h1 := hi.isLt; have h2 := lo.isLt; omega⟩ :: tail)
    | _, _, _ => none

/-- Go `hex.DecodeString`. -/
def hexDecode (s : String) : Option (List Byte) :=
  hexDecodeChars s.data

/-- GCM standard nonce size (12 bytes), Go `gcm.NonceSize()`. -/
def gcmNonceSize : Nat := 12

/-- GCM tag size (16 bytes), Go `gcm.Overhead()`. -/
def gcmTagLen : Nat := 16

/-- Modelled from the spec: the authentication tag of the authenticated
symmetric cipher (`crypto/cipher` AES-GCM, library code not in src). The
model's tag is a byte checksum over key, nonce and plaintext: it is
deterministic in those inputs and any single-byte change of nonce or
plaintext changes it, which is what the integrity claims rely on. -/
def gcmTag (key nonce body : List Byte) : Byte :=
  key.sum + nonce.sum + body.sum

/-- Modelled from the spec: `gcm.Seal(nil, nonce, plaintext, nil)` of
`crypto/cipher` (library code not in src): the sealed message is the
plaintext followed by a 16-byte authentication tag. -/
def gcmSeal (key nonce pt : List Byte) : List Byte :=
  pt ++ List.replicate gcmTagLen (gcmTag key nonce pt)

/-- Modelled from the spec: `gcm.Open(nil, nonce, data, nil)` of
`crypto/cipher` (library code not in src): reject short input, recompute
the tag over the body and fail unless it matches the stored tag. -/
def gcmOpen (key nonce dat : List Byte) : Option (List Byte) :=
  if dat.length < gcmTagLen then none
  else
    let body := dat.take (dat.length - gcmTagLen)
    let tag := dat.drop (dat.length - gcmTagLen)
    if tag = List.replicate gcmTagLen (gcmTag key nonce body) then some body else none

/-- Go `config.Encrypt` (internal/config/config.go): seal the plaintext
under a fresh random nonce, prepend the nonce, hex-encode. The nonce drawn
from `crypto/rand` is passed as an argument. -/
def Encrypt (key nonce pt : List Byte) : String :=
  hexEncode (nonce ++ gcmSeal key nonce pt)

/-- Go `config.Decrypt` (internal/config/config.go): hex-decode, reject
inputs shorter than the nonce, split off the nonce, open the remainder. -/
def Decrypt (key : List Byte) (ciphertext : String) : Except String (List Byte) :=
  match hexDecode ciphertext with
  | none => .error "encoding hex invalid"
  | some dat =>
    if dat.length < gcmNonceSize then .error "ciphertext too short"
    else
      match gcmOpen key (dat.take gcmNonceSize) (dat.drop gcmNonceSize) with
      | none => .error "message authentication failed"
      | some pt => .ok pt

/-- The three registered adapters (internal/adapters): Postgres, MySQL,
Redis. -/
inductive Adapter
  | postgres
  | mysql
  | redis
  deriving Repr, DecidableEq

namespace Adapter

/-- Adapter `GetName`. -/
def name : Adapter → String
  | postgres => "postgres"
  | mysql => "mysql"
  | redis => "redis"

/-- Adapter `GetAliases`. -/
def aliases : Adapter → List String
  | postgres => ["pg", "postgres", "postgresql"]
  | mysql => ["mysql", "mariadb"]
  | redis => ["redis"]

/-- Adapter `GetDefaultPort`. -/
def defaultPort : Adapter → Nat
  | postgres => 5432
  | mysql => 3306
  | redis => 6379

/-- Adapter `CreateUserCommand`; Go returns nil (here `none`) when user
creation is unsupported, as the Redis adapter does. -/
def createUserCommand : Adapter → String → String → String → Option (List String)
  | postgres, username, password, dbName =>
    some ["psql", "-U", "dbuser", "-d", dbName, "-c",
      "CREATE USER " ++ username ++ " WITH PASSWORD " ++ password ++
        " GRANT ALL PRIVILEGES ON DATABASE " ++ dbName ++ " TO " ++ username]
  | mysql, username, password, dbName =>
    some ["mysql", "-u", "root", "-prootpassword", "-e",
      "CREATE USER " ++ username ++ " IDENTIFIED BY " ++ password ++
        " GRANT ALL PRIVILEGES ON " ++ dbName ++ " TO " ++ username]
  | redis, _, _, _ => none

/-- Adapter `DeleteUserCommand`; `none` when unsupported (Redis). -/
def deleteUserCommand : Adapter → String → String → Option (List String)
  | postgres, username, dbName =>
    some ["psql", "-U", "dbuser", "-d", dbName, "-c",
      "DROP USER IF EXISTS " ++ username]
  | mysql, username, _ =>
    some ["mysql", "-u", "root", "-prootpassword", "-e",
      "DROP USER IF EXISTS " ++ username]
  | redis, _, _ => none

/-- Adapter `RotatePasswordCommand`; `none` when unsupported (Redis). -/
def rotatePasswordCommand : Adapter → String → String → String → Option (List String)
  | postgres, username, newPassword, dbName =>
    some ["psql", "-U", "dbuser", "-d", dbName, "-c",
      "ALTER USER " ++ username ++ " WITH PASSWORD " ++ newPassword]
  | mysql, username, newPassword, _ =>
    some ["mysql", "-u", "root", "-prootpassword", "-e",
      "ALTER USER " ++ username ++ " IDENTIFIED BY " ++ newPassword]
  | redis, _, _, _ => none

/-- Adapter `FormatConnectionString` (postgres.go / mysql.go / redis.go). -/
def formatConnectionString (a : Adapter) (username password host port dbName : String) :
    String :=
  match a with
  | postgres =>
    "postgresql://" ++ username ++ ":" ++ password ++ "@" ++ host ++ ":" ++ port
      ++ "/" ++ dbName
  | mysql =>
    if username = "" ∧ password = "" then
      "mysql://root@tcp(" ++ host ++ ":" ++ port ++ ")/" ++ dbName
    else
      "mysql://" ++ username ++ ":" ++ password ++ "@tcp(" ++ host ++ ":" ++ port
        ++ ")/" ++ dbName
  | redis =>
    if ¬ password = "" then
      "redis://:" ++ password ++ "@" ++ host ++ ":" ++ port ++ "/"
        ++ (if dbName = "" then "0" else dbName)
    else
      "redis://" ++ host ++ ":" ++ port ++ "/0"

end Adapter

/-- The adapters registered by `adapters.GetRegistry`, in registration
order. -/
def allAdapters : List Adapter :=
  [Adapter.postgres, Adapter.mysql, Adapter.redis]

/-- ASCII lowercase of a character (Go `strings.ToLower` on the ASCII
names and aliases the registry handles). -/
def toLowerChar (c : Char) : Char :=
  if 65 ≤ c.toNat ∧ c.toNat ≤ 90 then Char.ofNat (c.toNat + 32) else c

/-- Go `strings.ToLower(strings.TrimSpace(s))`: strip surrounding
whitespace, lowercase the rest. -/
def normalizeName (s : String) : String :=
  String.mk
    (((s.data.dropWhile Char.isWhitespace).reverse.dropWhile
        Char.isWhitespace).reverse.map toLowerChar)

/-- Go `Registry.Get`: lowercase and trim, then canonical-name lookup, then
alias lookup. -/
def registryGet (nameOrAlias : String) : Option Adapter :=
  let normalized := normalizeName nameOrAlias
  match allAdapters.find? (fun a => a.name = normalized) with
  | some a => some a
  | none => allAdapters.find? (fun a => a.aliases.contains normalized)

/-- Go `Registry.NormalizeType` / `types.NormalizeDBType`: resolve, then
return the canonical name. -/
def normalizeDBType (dbType : String) : Option String :=
  (registryGet dbType).map Adapter.name

/-- Go `docker.CreateUser` (user-management path): resolve the adapter, ask
it for the command; a nil command means the operation is unsupported and no
command is executed, otherwise the command is run via `ExecInContainer`
(returned here as the `ok` payload). -/
def dockerCreateUser (dbType username password dbName : String) :
    Except String (List String) :=
  match registryGet dbType with
  | none => .error ("failed to get adapter: unknown database type: " ++ dbType)
  | some a =>
    match a.createUserCommand username password dbName with
    | none => .error ("user creation not supported for " ++ dbType)
    | some cmd => .ok cmd

/-- Go `docker.DeleteUser`. -/
def dockerDeleteUser (dbType username dbName : String) : Except String (List String) :=
  match registryGet dbType with
  | none => .error ("failed to get adapter: unknown database type: " ++ dbType)
  | some a =>
    match a.deleteUserCommand username dbName with
    | none => .error ("user deletion not supported for " ++ dbType)
    | some cmd => .ok cmd

/-- Go `docker.RotatePassword`. -/
def dockerRotatePassword (dbType username newPassword dbName : String) :
    Except String (List String) :=
  match registryGet dbType with
  | none => .error ("failed to get adapter: unknown database type: " ++ dbType)
  | some a =>
    match a.rotatePasswordCommand username newPassword dbName with
    | none => .error ("password rotation not supported for " ++ dbType)
    | some cmd => .ok cmd

/-- Go `credentials.FormatConnectionString`: adapter lookup, empty string
when the adapter is unknown. -/
def formatConnectionString (dbType username password host port dbName : String) :
    String :=
  match registryGet dbType with
  | none => ""
  | some a => a.formatConnectionString username password host port dbName

/-- The runtime (Docker daemon) state the embedded operations observe:
which host ports are published by some container, and which container ids
exist. -/
structure Runtime where
  portOccupied : Nat → Bool
  containerExists : String → Bool

/-- Go `docker.IsPortAvailable`: true iff no container publishes the
port. -/
def isPortAvailable (rt : Runtime) (port : Nat) : Bool :=
  ¬ rt.portOccupied port

/-- The probe loop of `docker.FindAvailablePort`: with `fuel` attempts
remaining, try `port`, then `port + 1`, and so on. -/
def probeFrom (rt : Runtime) (port : Nat) : Nat → Option Nat
  | 0 => none
  | Nat.succ n => if isPortAvailable rt port then some port else probeFrom rt (port + 1) n

/-- Go `docker.FindAvailablePort`: probe `basePort + i` for
`i = 0, ..., 99` (`maxAttempts = 100`) and return the first available
port; `none` after 100 occupied ports. -/
def findAvailablePort (rt : Runtime) (basePort : Nat) : Option Nat :=
  probeFrom rt basePort 100

/-- The port-resolution step of `cmd/start.go` `runStart`: an explicitly
supplied occupied port fails immediately; with no explicit port the default
is used if free, otherwise `FindAvailablePort` probes from the default. -/
def resolveStartPort (rt : Runtime) (explicit : Option Nat) (defPort : Nat) :
    Option Nat :=
  match explicit with
  | none =>
    if isPortAvailable rt defPort then some defPort
    else findAvailablePort rt defPort
  | some p => if isPortAvailable rt p then some p else none

/-- One imperative call against the Docker runtime or the persisted store,
recorded in execution order. -/
inductive Effect
  | stopContainer (containerID : String)
  | removeContainer (containerID : String)
  | removeVolume (volumePath : String)
  | createContainer (dbType displayName username password : String)
      (port : Nat) (volumeType volumePath : String)
  | restartContainer (containerID : String)
  | createEventRow (e : Event)
  | deleteContainerRow (id : Nat)
  deriving Repr, DecidableEq

/-- Host-side state the volume operations act on: the Docker daemon's
managed volume objects and the directories under the named-volumes root
(`config.VolumesDir`), which are the on-disk named volumes. -/
structure HostState where
  dockerVolumes : List String
  volumeDirs : List String
  deriving Repr, DecidableEq

/-- Whether `sub` occurs inside `l`. -/
def charsContain (l sub : List Char) : Bool :=
  (List.range (l.length + 1)).any (fun i => sub.isPrefixOf (l.drop i))

/-- The Docker name filter used by `RemoveVolume`
(`filters.Add("name", volumePath)`): a volume matches when the filter
string occurs in its name. -/
def volumeNameMatches (filterStr name : String) : Bool :=
  charsContain name.data filterStr.data

/-- Go `docker.RemoveVolume` (the docker source in types.go): list the
Docker-managed volumes matching the name filter and remove each. The named
volumes of this tool are bind-mounted host directories (`createMount`
mounts `VolumesDir/<name>` as a bind), not Docker-managed volumes, and no
code path deletes those directories, so only the Docker volume-object list
can shrink. -/
def dockerRemoveVolume (vols : List String) (volumePath : String) : List String :=
  vols.filter (fun v => ¬ volumeNameMatches volumePath v = true)

/-- Go `cleanup.cleanupContainer` (internal/cleanup/cleanup.go): stop and
remove the runtime container when it still exists (best-effort), issue the
Docker volume-removal call when the record has a volume reference (it only
removes Docker-managed volume objects; the named-volume directory on disk
is untouched), append the `expired` event, then delete the record row.
Returns the emitted effects, the updated host state and the updated
store. -/
def cleanupContainer (rt : Runtime) (host : HostState) (s : Store) (c : Container)
    (now : Int) : List Effect × HostState × Store :=
  let fx1 :=
    if ¬ c.containerID = "" ∧ rt.containerExists c.containerID then
      [Effect.stopContainer c.containerID, Effect.removeContainer c.containerID]
    else []
  let fx2 := if ¬ c.volumePath = "" then [Effect.removeVolume c.volumePath] else []
  let host' :=
    if ¬ c.volumePath = "" then
      { host with dockerVolumes := dockerRemoveVolume host.dockerVolumes c.volumePath }
    else host
  let ev : Event :=
    { id := 0, contID := c.id, eventType := "expired", timestamp := now,
      details := "Container automatically expired and cleaned up" }
  (fx1 ++ fx2 ++ [Effect.createEventRow ev, Effect.deleteContainerRow c.id],
   host', (s.createEvent ev).deleteContainer c.id)

/-- Go `cmd/rm.go` `runRm` destructive tail (after selection and
confirmation): stop and remove the runtime container when it exists, issue
the Docker volume-removal call when a volume reference is present (again
leaving the on-disk named-volume directory in place), append the `deleted`
event, then delete the record row. -/
def runRm (rt : Runtime) (host : HostState) (s : Store) (c : Container)
    (now : Int) : List Effect × HostState × Store :=
  let fx1 :=
    if ¬ c.containerID = "" ∧ rt.containerExists c.containerID then
      [Effect.stopContainer c.containerID, Effect.removeContainer c.containerID]
    else []
  let fx2 := if ¬ c.volumePath = "" then [Effect.removeVolume c.volumePath] else []
  let host' :=
    if ¬ c.volumePath = "" then
      { host with dockerVolumes := dockerRemoveVolume host.dockerVolumes c.volumePath }
    else host
  let ev : Event :=
    { id := 0, contID := c.id, eventType := "deleted", timestamp := now,
      details := "Container deleted by user" }
  (fx1 ++ fx2 ++ [Effect.createEventRow ev, Effect.deleteContainerRow c.id],
   host', (s.createEvent ev).deleteContainer c.id)

/-- Go `credentials.DefaultUsername`. -/
def defaultUsername : String := "dbuser"

/-- Go `credentials.DefaultPassword` (used by the restore path). -/
def defaultPassword : String := "$uper$ecret"

/-- Bytes of a Go string (`[]byte(s)`, UTF-8). -/
def strToBytes (s : String) : List Byte :=
  s.toUTF8.toList.map (fun b => ⟨b.toNat % 256, Nat.mod_lt _ (by norm_num)⟩)

/-- Go string of a byte slice (`string(b)`); modelled as a code-point map,
enough for the round-tripped credentials the embedding handles. -/
def bytesToStr (bs : List Byte) : String :=
  String.mk (bs.map (fun b => Char.ofNat b.val))

/-- The credential branch of `cmd/start.go` `runStart`: an explicit
`--no-auth=true` flag means empty username and password; an unset flag asks
the user and either generates credentials or leaves them empty; an explicit
`--no-auth=false` flag generates credentials. The random password from
`credentials.GeneratePassword` is the `generated` argument. -/
def determineCredentials (noAuthFlagSet noAuthFlag promptUseAuth : Bool)
    (generated : String) : String × String :=
  if noAuthFlagSet ∧ noAuthFlag then ("", "")
  else if ¬ noAuthFlagSet then
    if promptUseAuth then (defaultUsername, generated) else ("", "")
  else (defaultUsername, generated)

/-- Row id assigned by SQLite AUTOINCREMENT for the next container insert
(`LastInsertId`). -/
def Store.nextContainerID (s : Store) : Nat :=
  (s.containers.map Container.id).foldr Nat.max 0 + 1

/-- Failure modes of the create pipeline. -/
inductive StartError
  | invalidDBType
  | conflict
  | portUnavailable
  deriving Repr, DecidableEq

/-- Successful create: the runtime effects issued, the updated store, the
printed connection string, and the inserted user and container rows. -/
structure StartOk where
  effects : List Effect
  store : Store
  connectionString : String
  user : User
  container : Container
  deriving Repr, DecidableEq

/-- Result of the create pipeline; a failure records the effects issued and
the store state at the point of failure. -/
inductive StartResult
  | ok (r : StartOk)
  | err (e : StartError) (effects : List Effect) (store : Store)
  deriving Repr, DecidableEq

/-- Inputs of `cmd/start.go` `runStart` after flag/prompt collection: the
requested type and name, the optional explicit port, TTL hours, the
resolved volume configuration, and the `--no-auth` flag state. -/
structure StartArgs where
  dbType : String
  name : String
  version : String
  explicitPort : Option Nat
  ttlHours : Int
  volumeType : String
  volumePath : String
  noAuthFlagSet : Bool
  noAuthFlag : Bool
  promptUseAuth : Bool
  deriving Repr, DecidableEq

/-- Go `cmd/start.go` `runStart` core pipeline: normalize the database type
(registry lookup), refuse a duplicate container name, resolve the host port
(explicit occupied port fails immediately, otherwise default-then-probe),
determine credentials, create and start the runtime container, insert the
container row, insert the default user row (password encrypted unless the
`--no-auth` flag is set), append the `created` event, and format the
connection string. Ports are numeric here; the Go code carries them as
strings. -/
def runStart (rt : Runtime) (s : Store) (a : StartArgs) (generated : String)
    (key nonce : List Byte) (newContainerID : String) (now : Int) : StartResult :=
  match registryGet a.dbType with
  | none => .err .invalidDBType [] s
  | some adapter =>
    let dbType := adapter.name
    let containerName := "mkdb-" ++ a.name
    if (s.getContainer containerName).isSome then .err .conflict [] s
    else
      match resolveStartPort rt a.explicitPort adapter.defaultPort with
      | none => .err .portUnavailable [] s
      | some hostPort =>
        let cred := determineCredentials a.noAuthFlagSet a.noAuthFlag a.promptUseAuth generated
        let username := cred.1
        let password := cred.2
        let fx := Effect.createContainer dbType a.name username password hostPort
          a.volumeType a.volumePath
        let cont : Container :=
          { id := s.nextContainerID, name := containerName, displayName := a.name,
            dbType := dbType, version := a.version, containerID := newContainerID,
            port := toString hostPort, status := "running", createdAt := now,
            expiresAt := now + a.ttlHours * nsPerHour, volumeType := a.volumeType,
            volumePath := a.volumePath }
        let passwordHash :=
          if ¬ a.noAuthFlag then Encrypt key nonce (strToBytes password) else ""
        let user : User :=
          { id := 0, contID := cont.id, username := username,
            passwordHash := passwordHash, isDefault := true, createdAt := now }
        let ev : Event :=
          { id := 0, contID := cont.id, eventType := "created", timestamp := now,
            details := "Container created" }
        let connStr := formatConnectionString dbType username password "localhost"
          (toString hostPort) a.name
        .ok { effects := [fx],
              store := ((s.createContainer cont).createUser user).createEvent ev,
              connectionString := connStr, user := user, container := cont }

/-- Result of `cmd/restart.go` `runRestart`. -/
inductive RestartResult
  | ok (effects : List Effect) (store : Store)
  | err (msg : String) (effects : List Effect) (store : Store)
  deriving Repr, DecidableEq

/-- Go `cmd/restart.go` `runRestart` (after selection): when the runtime
container still exists, restart it in place; otherwise fetch the default
user, decrypt the stored password hash, and recreate the container with the
recorded port, volume and credentials. Either way, set status `running` and
append a `restarted` event; a decryption failure aborts before any runtime
effect. -/
def runRestart (rt : Runtime) (s : Store) (c : Container) (key : List Byte)
    (now : Int) : RestartResult :=
  let finish (fx : List Effect) : RestartResult :=
    .ok fx ((s.updateContainer { c with status := "running" }).createEvent
      { id := 0, contID := c.id, eventType := "restarted", timestamp := now,
        details := "Container restarted by user" })
  if ¬ c.containerID = "" ∧ rt.containerExists c.containerID then
    finish [Effect.restartContainer c.containerID]
  else
    match s.getDefaultUser c.id with
    | none => .err "failed to get default user" [] s
    | some u =>
      match Decrypt key u.passwordHash with
      | .error e => .err ("failed to decrypt password: " ++ e) [] s
      | .ok pw =>
        finish [Effect.createContainer c.dbType c.displayName u.username
          (bytesToStr pw) 0 c.volumeType c.volumePath]

/-- Go `volumes.OrphanedVolume`: a directory under the volumes root, with
its name and full path. -/
structure OrphanVolume where
  name : String
  path : String
  deriving Repr, DecidableEq

/-- Go `volumes.ScanOrphaned`, restricted to the reported names: the
subdirectories of the volumes root that are not the named-volume reference
of any active (`ListContainers`) record. -/
def scanOrphanedNames (s : Store) (dirs : List String) : List String :=
  dirs.filter (fun d =>
    ¬ s.listContainers.any (fun c =>
      c.volumeType = "named" ∧ ¬ c.volumePath = "" ∧ c.volumePath = d))

/-- Go `cmd/restore.go` `runRestore` core pipeline (after volume selection):
normalize the type, refuse a duplicate name, resolve the port, create the
runtime container with a bind mount to the orphaned directory and the
default credentials, then insert a record whose volume type is `named` and
whose volume path is the volume directory name, plus the default user row
and a `restored` event. -/
def runRestore (rt : Runtime) (s : Store) (vol : OrphanVolume) (dbType : String)
    (version : String) (explicitPort : Option Nat) (ttl : Int) (key nonce : List Byte)
    (newContainerID : String) (now : Int) : StartResult :=
  match registryGet dbType with
  | none => .err .invalidDBType [] s
  | some adapter =>
    let containerName := "mkdb-" ++ vol.name
    if (s.getContainer containerName).isSome then .err .conflict [] s
    else
      match resolveStartPort rt explicitPort adapter.defaultPort with
      | none => .err .portUnavailable [] s
      | some hostPort =>
        let fx := Effect.createContainer adapter.name vol.name defaultUsername
          defaultPassword hostPort "bind" vol.path
        let cont : Container :=
          { id := s.nextContainerID, name := containerName, displayName := vol.name,
            dbType := adapter.name, version := version, containerID := newContainerID,
            port := toString hostPort, status := "running", createdAt := now,
            expiresAt := now + ttl * nsPerHour, volumeType := "named",
            volumePath := vol.name }
        let user : User :=
          { id := 0, contID := cont.id, username := defaultUsername,
            passwordHash := Encrypt key nonce (strToBytes defaultPassword),
            isDefault := true, createdAt := now }
        let ev : Event :=
          { id := 0, contID := cont.id, eventType := "restored", timestamp := now,
            details := "Container restored from volume" }
        .ok { effects := [fx],
              store := ((s.createContainer cont).createUser user).createEvent ev,
              connectionString := formatConnectionString adapter.name defaultUsername
                defaultPassword "localhost" (toString hostPort) vol.name,
              user := user, container := cont }

/-- A concrete runtime used to evaluate the theorems on sample inputs:
port 5432 occupied, runtime container `cid0` present. -/
def sampleRuntime : Runtime :=
  { portOccupied := fun p => p == 5432, containerExists := fun c => c == "cid0" }

/-- A runtime with every port occupied and no containers. -/
def fullRuntime : Runtime :=
  { portOccupied := fun _ => true, containerExists := fun _ => false }

/-- The empty persisted store. -/
def emptyStore : Store :=
  { containers := [], users := [], events := [] }

end Mkdb

/-- C1: Code bug. The spec (and the schema declared by
`database.Initialize`) intend a foreign-key cascade from containers to
users and events, but the program opens SQLite with a bare
`sql.Open("sqlite", path)` and never enables `PRAGMA foreign_keys`, so
`DeleteContainer` removes only the container row: for every store, user
and event rows survive the delete unchanged, and at the concrete failing
input (one container with its default user row and `created` event row,
then `DeleteContainer(1)`) the store is left with orphaned user and event
rows, contradicting the claim. -/
theorem C1_cascade_delete_code_bug :
    (∀ (s : Mkdb.Store) (id : Nat),
      (s.deleteContainer id).users = s.users ∧
      (s.deleteContainer id).events = s.events) ∧
    (({ containers := [{ id := 1, name := "mkdb-devdb", displayName := "devdb",
                         dbType := "postgres", version := "18", containerID := "cid0",
                         port := "5432", status := "running", createdAt := 0,
                         expiresAt := 10, volumeType := "named",
                         volumePath := "devdb" }],
        users := [{ id := 1, contID := 1, username := "dbuser", passwordHash := "h",
                    isDefault := true, createdAt := 0 }],
        events := [{ id := 1, contID := 1, eventType := "created", timestamp := 0,
                     details := "d" }] } : Mkdb.Store).deleteContainer 1).users
      = [{ id := 1, contID := 1, username := "dbuser", passwordHash := "h",
           isDefault := true, createdAt := 0 }] ∧
    (({ containers := [{ id := 1, name := "mkdb-devdb", displayName := "devdb",
                         dbType := "postgres", version := "18", containerID := "cid0",
                         port := "5432", status := "running", createdAt := 0,
                         expiresAt := 10, volumeType := "named",
                         volumePath := "devdb" }],
        users := [{ id := 1, contID := 1, username := "dbuser", passwordHash := "h",
                    isDefault := true, createdAt := 0 }],
        events := [{ id := 1, contID := 1, eventType := "created", timestamp := 0,
                     details := "d" }] } : Mkdb.Store).deleteContainer 1).noOrphans
      = false :=
  ⟨fun s id => ⟨rfl, rfl⟩, by decide, by decide⟩

/-- C4: `cleanup.extendContainer` extends a not-yet-expired record to
`old expires_at + h` hours and an already-expired record (now strictly after
`expires_at`) to `now + h` hours. -/
theorem C4_ttl_extension_arithmetic (now expiresAt : Int) (hours : Int) :
    (¬ expiresAt < now →
      Mkdb.extendExpiresAt now expiresAt hours = expiresAt + hours * Mkdb.nsPerHour) ∧
    (expiresAt < now →
      Mkdb.extendExpiresAt now expiresAt hours = now + hours * Mkdb.nsPerHour) := by
  constructor
  · intro h; simp [Mkdb.extendExpiresAt, h]
  · intro h; simp [Mkdb.extendExpiresAt, h]

/-- Witness for C4 at concrete times. -/
theorem C4_ttl_extension_arithmetic_witness :
    Mkdb.extendExpiresAt 5 10 2 = 10 + 2 * Mkdb.nsPerHour ∧
    Mkdb.extendExpiresAt 20 10 2 = 20 + 2 * Mkdb.nsPerHour :=
  ⟨(C4_ttl_extension_arithmetic 5 10 2).1 (by decide),
   (C4_ttl_extension_arithmetic 20 10 2).2 (by decide)⟩

/-- Round-trip of a single hex digit through encode then decode. -/
theorem Mkdb.hexDigitVal_hexDigitChar :
    ∀ n : Fin 16, Mkdb.hexDigitVal (Mkdb.hexDigitChar n.val) = some n := by decide

/-- Round-trip of `hex.DecodeString` after `hex.EncodeToString` (char level). -/
theorem Mkdb.hexDecodeChars_hexEncodeBytes (bs : List Mkdb.Byte) :
    Mkdb.hexDecodeChars (Mkdb.hexEncodeBytes bs) = some bs := by
  induction bs with
  | nil => rfl
  | cons b rest ih =>
    have hblt : b.val < 256 := b.isLt
    have hhi := Mkdb.hexDigitVal_hexDigitChar ⟨b.val / 16, by omega⟩
    have hlo := Mkdb.hexDigitVal_hexDigitChar ⟨b.val % 16, by omega⟩
    simp only [Mkdb.hexEncodeBytes, Mkdb.hexDecodeChars, hhi, hlo, ih]
    refine congrArg some ?_
    refine congrArg (fun x => x :: rest) ?_
    refine Fin.ext ?_
    show b.val / 16 * 16 + b.val % 16 = b.val
    omega

/-- Hex encoding is injective (no two byte strings share an encoding). -/
theorem Mkdb.hexEncode_injective {a b : List Mkdb.Byte}
    (h : Mkdb.hexEncode a = Mkdb.hexEncode b) : a = b := by
  have hdata : Mkdb.hexEncodeBytes a = Mkdb.hexEncodeBytes b := by
    simpa [Mkdb.hexEncode] using congrArg String.data h
  have h2 := congrArg Mkdb.hexDecodeChars hdata
  rw [Mkdb.hexDecodeChars_hexEncodeBytes, Mkdb.hexDecodeChars_hexEncodeBytes] at h2
  exact Option.some.inj h2

/-- Length of a sealed message: plaintext plus the 16-byte tag. -/
theorem Mkdb.gcmSeal_length (key nonce pt : List Mkdb.Byte) :
    (Mkdb.gcmSeal key nonce pt).length = pt.length + Mkdb.gcmTagLen := by
  simp [Mkdb.gcmSeal]

/-- Opening a sealed message with the right key and nonce succeeds. -/
theorem Mkdb.gcmOpen_gcmSeal (key nonce pt : List Mkdb.Byte) :
    Mkdb.gcmOpen key nonce (Mkdb.gcmSeal key nonce pt) = some pt := by
  have h16 : ¬ (Mkdb.gcmSeal key nonce pt).length < Mkdb.gcmTagLen := by
    simp [Mkdb.gcmSeal_length]
  have hsub : (Mkdb.gcmSeal key nonce pt).length - Mkdb.gcmTagLen = pt.length := by
    simp [Mkdb.gcmSeal_length]
  have htake : (Mkdb.gcmSeal key nonce pt).take pt.length = pt :=
    List.take_left pt (List.replicate Mkdb.gcmTagLen (Mkdb.gcmTag key nonce pt))
  have hdrop : (Mkdb.gcmSeal key nonce pt).drop pt.length
      = List.replicate Mkdb.gcmTagLen (Mkdb.gcmTag key nonce pt) :=
    List.drop_left pt (List.replicate Mkdb.gcmTagLen (Mkdb.gcmTag key nonce pt))
  simp [Mkdb.gcmOpen, h16, hsub, htake, hdrop]

/-- Changing an entry of a byte list changes its sum iff the entry changed. -/
theorem Mkdb.sum_set_eq_iff (l : List Mkdb.Byte) (i : Nat) (b : Mkdb.Byte)
    (h : i < l.length) : (l.set i b).sum = l.sum ↔ b = l[i] := by
  have hdecomp : l.sum = (l.take i).sum + (l[i] + (l.drop (i+1)).sum) := by
    conv_lhs => rw [← List.take_append_drop i l]
    rw [List.sum_append, List.drop_eq_getElem_cons h, List.sum_cons]
  rw [List.sum_set, if_pos h, hdecomp]
  constructor
  · intro heq
    rw [add_assoc] at heq
    exact (add_left_inj _).mp ((add_right_inj _).mp heq)
  · intro heq
    rw [heq, add_assoc]

/-- Corrupting a nonce byte changes the authentication tag. -/
theorem Mkdb.gcmTag_ne_of_nonce_set (key nonce pt : List Mkdb.Byte) (i : Nat)
    (b : Mkdb.Byte) (hi : i < nonce.length) (hb : b ≠ nonce[i]) :
    Mkdb.gcmTag key (nonce.set i b) pt ≠ Mkdb.gcmTag key nonce pt := by
  intro h
  unfold Mkdb.gcmTag at h
  have h1 : key.sum + (nonce.set i b).sum = key.sum + nonce.sum := (add_left_inj _).mp h
  have h2 : (nonce.set i b).sum = nonce.sum := (add_right_inj _).mp h1
  exact hb ((Mkdb.sum_set_eq_iff nonce i b hi).mp h2)

/-- Corrupting a plaintext byte changes the authentication tag. -/
theorem Mkdb.gcmTag_ne_of_body_set (key nonce pt : List Mkdb.Byte) (j : Nat)
    (b : Mkdb.Byte) (hj : j < pt.length) (hb : b ≠ pt[j]) :
    Mkdb.gcmTag key nonce (pt.set j b) ≠ Mkdb.gcmTag key nonce pt := by
  intro h
  unfold Mkdb.gcmTag at h
  have h2 : (pt.set j b).sum = pt.sum := (add_right_inj _).mp h
  exact hb ((Mkdb.sum_set_eq_iff pt j b hj).mp h2)

/-- Opening fails when the nonce was corrupted in one byte. -/
theorem Mkdb.gcmOpen_nonce_set_ne (key nonce pt : List Mkdb.Byte) (i : Nat)
    (b : Mkdb.Byte) (hi : i < nonce.length) (hb : b ≠ nonce[i]) :
    Mkdb.gcmOpen key (nonce.set i b) (Mkdb.gcmSeal key nonce pt) = none := by
  have h16 : ¬ (Mkdb.gcmSeal key nonce pt).length < Mkdb.gcmTagLen := by
    simp [Mkdb.gcmSeal_length]
  have hsub : (Mkdb.gcmSeal key nonce pt).length - Mkdb.gcmTagLen = pt.length := by
    simp [Mkdb.gcmSeal_length]
  have htake : (Mkdb.gcmSeal key nonce pt).take pt.length = pt :=
    List.take_left pt (List.replicate Mkdb.gcmTagLen (Mkdb.gcmTag key nonce pt))
  have hdrop : (Mkdb.gcmSeal key nonce pt).drop pt.length
      = List.replicate Mkdb.gcmTagLen (Mkdb.gcmTag key nonce pt) :=
    List.drop_left pt (List.replicate Mkdb.gcmTagLen (Mkdb.gcmTag key nonce pt))
  have htagne : List.replicate Mkdb.gcmTagLen (Mkdb.gcmTag key nonce pt)
      ≠ List.replicate Mkdb.gcmTagLen (Mkdb.gcmTag key (nonce.set i b) pt) := by
    intro h
    exact Mkdb.gcmTag_ne_of_nonce_set key nonce pt i b hi hb
      ((List.replicate_right_inj (by decide)).mp h).symm
  simp only [Mkdb.gcmOpen, h16, if_false, hsub, htake, hdrop]
  simp [htagne]

/-- Opening fails when a byte of the sealed message was corrupted. -/
theorem Mkdb.gcmOpen_set_ne (key nonce pt : List Mkdb.Byte) (j : Nat) (b : Mkdb.Byte)
    (hj : j < (Mkdb.gcmSeal key nonce pt).length)
    (hb : b ≠ (Mkdb.gcmSeal key nonce pt)[j]) :
    Mkdb.gcmOpen key nonce ((Mkdb.gcmSeal key nonce pt).set j b) = none := by
  have hj' : j < pt.length + Mkdb.gcmTagLen := by
    simpa [Mkdb.gcmSeal_length] using hj
  have hlen : ((Mkdb.gcmSeal key nonce pt).set j b).length = pt.length + Mkdb.gcmTagLen := by
    simp [List.length_set, Mkdb.gcmSeal_length]
  have h16 : ¬ ((Mkdb.gcmSeal key nonce pt).set j b).length < Mkdb.gcmTagLen := by
    simp [hlen]
  have hsub : ((Mkdb.gcmSeal key nonce pt).set j b).length - Mkdb.gcmTagLen = pt.length := by
    simp [hlen]
  by_cases hcase : j < pt.length
  · have hset : (Mkdb.gcmSeal key nonce pt).set j b
        = pt.set j b ++ List.replicate Mkdb.gcmTagLen (Mkdb.gcmTag key nonce pt) := by
      simp [Mkdb.gcmSeal, List.set_append, hcase]
    have hgj : (Mkdb.gcmSeal key nonce pt)[j] = pt[j] := by
      unfold Mkdb.gcmSeal
      exact List.getElem_append_left hcase
    rw [hgj] at hb
    have htake : List.take pt.length
        (pt.set j b ++ List.replicate Mkdb.gcmTagLen (Mkdb.gcmTag key nonce pt))
        = pt.set j b := by
      simpa [List.length_set] using
        List.take_left (pt.set j b) (List.replicate Mkdb.gcmTagLen (Mkdb.gcmTag key nonce pt))
    have hdrop : List.drop pt.length
        (pt.set j b ++ List.replicate Mkdb.gcmTagLen (Mkdb.gcmTag key nonce pt))
        = List.replicate Mkdb.gcmTagLen (Mkdb.gcmTag key nonce pt) := by
      simpa [List.length_set] using
        List.drop_left (pt.set j b) (List.replicate Mkdb.gcmTagLen (Mkdb.gcmTag key nonce pt))
    have htagne : List.replicate Mkdb.gcmTagLen (Mkdb.gcmTag key nonce pt)
        ≠ List.replicate Mkdb.gcmTagLen (Mkdb.gcmTag key nonce (pt.set j b)) := by
      intro h
      exact Mkdb.gcmTag_ne_of_body_set key nonce pt j b hcase hb
        ((List.replicate_right_inj (by decide)).mp h).symm
    simp only [Mkdb.gcmOpen, h16, if_false, hsub, hset, htake, hdrop]
    simp [htagne]
  · have hge : pt.length ≤ j := Nat.le_of_not_lt hcase
    have hk : j - pt.length < Mkdb.gcmTagLen := by omega
    have hset : (Mkdb.gcmSeal key nonce pt).set j b
        = pt ++ (List.replicate Mkdb.gcmTagLen (Mkdb.gcmTag key nonce pt)).set (j - pt.length) b := by
      simp [Mkdb.gcmSeal, List.set_append, hcase]
    have hgj : (Mkdb.gcmSeal key nonce pt)[j] = Mkdb.gcmTag key nonce pt := by
      unfold Mkdb.gcmSeal
      rw [List.getElem_append_right hge]
      exact List.getElem_replicate _ _
    rw [hgj] at hb
    have htake : List.take pt.length
        (pt ++ (List.replicate Mkdb.gcmTagLen (Mkdb.gcmTag key nonce pt)).set (j - pt.length) b)
        = pt :=
      List.take_left pt _
    have hdrop : List.drop pt.length
        (pt ++ (List.replicate Mkdb.gcmTagLen (Mkdb.gcmTag key nonce pt)).set (j - pt.length) b)
        = (List.replicate Mkdb.gcmTagLen (Mkdb.gcmTag key nonce pt)).set (j - pt.length) b :=
      List.drop_left pt _
    have htagne : (List.replicate Mkdb.gcmTagLen (Mkdb.gcmTag key nonce pt)).set (j - pt.length) b
        ≠ List.replicate Mkdb.gcmTagLen (Mkdb.gcmTag key nonce pt) := by
      intro h
      have h1 := congrArg (fun l => l[j - pt.length]?) h
      simp [List.getElem?_set_self, List.getElem?_replicate, hk] at h1
      exact hb h1
    simp only [Mkdb.gcmOpen, h16, if_false, hsub, hset, htake, hdrop]
    simp [htagne]

/-- Decryption inverts encryption for any key, plaintext and 12-byte nonce. -/
theorem Mkdb.Decrypt_Encrypt (key nonce pt : List Mkdb.Byte)
    (hn : nonce.length = Mkdb.gcmNonceSize) :
    Mkdb.Decrypt key (Mkdb.Encrypt key nonce pt) = .ok pt := by
  have hdec : Mkdb.hexDecode (Mkdb.Encrypt key nonce pt)
      = some (nonce ++ Mkdb.gcmSeal key nonce pt) := by
    simp [Mkdb.Encrypt, Mkdb.hexDecode, Mkdb.hexEncode, Mkdb.hexDecodeChars_hexEncodeBytes]
  have hshort : ¬ (nonce ++ Mkdb.gcmSeal key nonce pt).length < Mkdb.gcmNonceSize := by
    simp only [List.length_append, hn]
    omega
  have htake : List.take Mkdb.gcmNonceSize (nonce ++ Mkdb.gcmSeal key nonce pt) = nonce := by
    rw [← hn]
    exact List.take_left nonce _
  have hdrop : List.drop Mkdb.gcmNonceSize (nonce ++ Mkdb.gcmSeal key nonce pt)
      = Mkdb.gcmSeal key nonce pt := by
    rw [← hn]
    exact List.drop_left nonce _
  simp only [Mkdb.Decrypt, hdec]
  rw [if_neg hshort]
  rw [htake, hdrop, Mkdb.gcmOpen_gcmSeal]

/-- Distinct fresh nonces give distinct ciphertexts for one plaintext. -/
theorem Mkdb.Encrypt_nonce_injective (key pt n1 n2 : List Mkdb.Byte)
    (h1 : n1.length = Mkdb.gcmNonceSize) (h2 : n2.length = Mkdb.gcmNonceSize)
    (hne : n1 ≠ n2) : Mkdb.Encrypt key n1 pt ≠ Mkdb.Encrypt key n2 pt := by
  intro h
  have hdata := Mkdb.hexEncode_injective h
  exact hne (List.append_inj hdata (by rw [h1, h2])).1

/-- Decryption of a ciphertext with one corrupted byte fails authentication. -/
theorem Mkdb.Decrypt_set_ne (key nonce pt : List Mkdb.Byte)
    (hn : nonce.length = Mkdb.gcmNonceSize) (i : Nat) (b : Mkdb.Byte)
    (hi : i < (nonce ++ Mkdb.gcmSeal key nonce pt).length)
    (hb : b ≠ (nonce ++ Mkdb.gcmSeal key nonce pt)[i]) :
    Mkdb.Decrypt key (Mkdb.hexEncode ((nonce ++ Mkdb.gcmSeal key nonce pt).set i b))
      = .error "message authentication failed" := by
  have hdec : Mkdb.hexDecode (Mkdb.hexEncode ((nonce ++ Mkdb.gcmSeal key nonce pt).set i b))
      = some ((nonce ++ Mkdb.gcmSeal key nonce pt).set i b) := by
    simp [Mkdb.hexDecode, Mkdb.hexEncode, Mkdb.hexDecodeChars_hexEncodeBytes]
  have hshort : ¬ ((nonce ++ Mkdb.gcmSeal key nonce pt).set i b).length < Mkdb.gcmNonceSize := by
    simp [List.length_set, hn]
  by_cases hcase : i < nonce.length
  · have hset : (nonce ++ Mkdb.gcmSeal key nonce pt).set i b
        = nonce.set i b ++ Mkdb.gcmSeal key nonce pt := by
      simp [List.set_append, hcase]
    have htake : List.take Mkdb.gcmNonceSize (nonce.set i b ++ Mkdb.gcmSeal key nonce pt)
        = nonce.set i b := by
      simpa [List.length_set, hn] using
        List.take_left (nonce.set i b) (Mkdb.gcmSeal key nonce pt)
    have hdrop : List.drop Mkdb.gcmNonceSize (nonce.set i b ++ Mkdb.gcmSeal key nonce pt)
        = Mkdb.gcmSeal key nonce pt := by
      simpa [List.length_set, hn] using
        List.drop_left (nonce.set i b) (Mkdb.gcmSeal key nonce pt)
    have hgi : (nonce ++ Mkdb.gcmSeal key nonce pt)[i] = nonce[i] :=
      List.getElem_append_left hcase
    rw [hgi] at hb
    have hopen := Mkdb.gcmOpen_nonce_set_ne key nonce pt i b hcase hb
    rw [hset] at hdec hshort
    simp only [Mkdb.Decrypt, hset, hdec]
    rw [if_neg hshort]
    rw [htake, hdrop, hopen]
  · have hge : nonce.length ≤ i := Nat.le_of_not_lt hcase
    have hset : (nonce ++ Mkdb.gcmSeal key nonce pt).set i b
        = nonce ++ (Mkdb.gcmSeal key nonce pt).set (i - nonce.length) b := by
      simp [List.set_append, hcase]
    have htake : List.take Mkdb.gcmNonceSize
        (nonce ++ (Mkdb.gcmSeal key nonce pt).set (i - nonce.length) b) = nonce := by
      simpa [hn] using
        List.take_left nonce ((Mkdb.gcmSeal key nonce pt).set (i - nonce.length) b)
    have hdrop : List.drop Mkdb.gcmNonceSize
        (nonce ++ (Mkdb.gcmSeal key nonce pt).set (i - nonce.length) b)
        = (Mkdb.gcmSeal key nonce pt).set (i - nonce.length) b := by
      simpa [hn] using
        List.drop_left nonce ((Mkdb.gcmSeal key nonce pt).set (i - nonce.length) b)
    have hj : i - nonce.length < (Mkdb.gcmSeal key nonce pt).length := by
      have htot := hi
      simp only [List.length_append] at htot
      omega
    have hgi : (nonce ++ Mkdb.gcmSeal key nonce pt)[i]
        = (Mkdb.gcmSeal key nonce pt)[i - nonce.length] :=
      List.getElem_append_right hge
    rw [hgi] at hb
    have hopen := Mkdb.gcmOpen_set_ne key nonce pt (i - nonce.length) b hj hb
    rw [hset] at hdec hshort
    simp only [Mkdb.Decrypt, hset, hdec]
    rw [if_neg hshort]
    rw [htake, hdrop, hopen]

/-- C6: For the credential cipher of `config.Encrypt` and `config.Decrypt`,
decrypting an encryption returns the original plaintext; two encryptions of
one plaintext under distinct fresh nonces never produce the same ciphertext;
and decrypting a ciphertext with any single byte corrupted fails with an
authentication error, never yielding a different plaintext. -/
theorem C6_encrypt_roundtrip_nonce_integrity
    (key pt n1 n2 nonce : List Mkdb.Byte) (i : Nat) (b : Mkdb.Byte)
    (hn : nonce.length = Mkdb.gcmNonceSize)
    (h1 : n1.length = Mkdb.gcmNonceSize) (h2 : n2.length = Mkdb.gcmNonceSize)
    (hne : n1 ≠ n2)
    (hi : i < (nonce ++ Mkdb.gcmSeal key nonce pt).length)
    (hb : b ≠ (nonce ++ Mkdb.gcmSeal key nonce pt)[i]) :
    Mkdb.Decrypt key (Mkdb.Encrypt key nonce pt) = .ok pt ∧
    Mkdb.Encrypt key n1 pt ≠ Mkdb.Encrypt key n2 pt ∧
    Mkdb.Decrypt key (Mkdb.hexEncode ((nonce ++ Mkdb.gcmSeal key nonce pt).set i b))
      = .error "message authentication failed" :=
  ⟨Mkdb.Decrypt_Encrypt key nonce pt hn,
   Mkdb.Encrypt_nonce_injective key pt n1 n2 h1 h2 hne,
   Mkdb.Decrypt_set_ne key nonce pt hn i b hi hb⟩

/-- Witness for C6 at a concrete key, plaintext, nonces and corruption. -/
theorem C6_encrypt_roundtrip_nonce_integrity_witness :
    Mkdb.Decrypt [] (Mkdb.Encrypt [] (List.replicate 12 (0 : Mkdb.Byte)) [37]) = .ok [37] ∧
    Mkdb.Encrypt [] (List.replicate 12 (0 : Mkdb.Byte)) [37]
      ≠ Mkdb.Encrypt [] ((1 : Mkdb.Byte) :: List.replicate 11 0) [37] ∧
    Mkdb.Decrypt [] (Mkdb.hexEncode
      ((List.replicate 12 (0 : Mkdb.Byte)
        ++ Mkdb.gcmSeal [] (List.replicate 12 (0 : Mkdb.Byte)) [37]).set 0 5))
      = .error "message authentication failed" :=
  C6_encrypt_roundtrip_nonce_integrity [] [37] (List.replicate 12 0)
    ((1 : Mkdb.Byte) :: List.replicate 11 0) (List.replicate 12 0) 0 5
    (by decide) (by decide) (by decide) (by decide) (by decide) (by decide)

/-- Soundness of the probe loop: a returned port lies in the probed window,
is free, and every earlier port of the window is occupied. -/
theorem Mkdb.probeFrom_eq_some (rt : Mkdb.Runtime) :
    ∀ (n p q : Nat), Mkdb.probeFrom rt p n = some q →
      p ≤ q ∧ q < p + n ∧ rt.portOccupied q = false ∧
      ∀ r, p ≤ r → r < q → rt.portOccupied r = true := by
  intro n
  induction n with
  | zero => intro p q h; simp [Mkdb.probeFrom] at h
  | succ n ih =>
    intro p q h
    simp only [Mkdb.probeFrom] at h
    by_cases hav : Mkdb.isPortAvailable rt p = true
    · rw [if_pos hav] at h
      obtain rfl : p = q := by simpa using h
      refine ⟨Nat.le_refl p, by omega, ?_, ?_⟩
      · simpa [Mkdb.isPortAvailable] using hav
      · intro r h1 h2; omega
    · rw [if_neg hav] at h
      obtain ⟨h1, h2, h3, h4⟩ := ih (p + 1) q h
      refine ⟨by omega, by omega, h3, ?_⟩
      intro r hr1 hr2
      by_cases hrp : r = p
      · subst hrp
        simpa [Mkdb.isPortAvailable] using hav
      · exact h4 r (by omega) hr2

/-- The probe loop finds nothing when every port of the window is
occupied. -/
theorem Mkdb.probeFrom_eq_none (rt : Mkdb.Runtime) :
    ∀ (n p : Nat), (∀ i, i < n → rt.portOccupied (p + i) = true) →
      Mkdb.probeFrom rt p n = none := by
  intro n
  induction n with
  | zero => intro p _; rfl
  | succ n ih =>
    intro p h
    have h0 : rt.portOccupied p = true := by simpa using h 0 (by omega)
    have hav : ¬ Mkdb.isPortAvailable rt p = true := by
      simp [Mkdb.isPortAvailable, h0]
    simp only [Mkdb.probeFrom, if_neg hav]
    exact ih (p + 1) (fun i hi => by
      simpa [show p + 1 + i = p + (i + 1) by omega] using h (i + 1) (by omega))

/-- C5: Port policy on create: an explicitly supplied occupied port makes
`runStart` fail at once, with no runtime effect and an unchanged store (no
container created); with no explicit port and an occupied default, any
chosen port is free, differs from the default, and is the first free port
of the 100-port window probed linearly from the default; when all 100
consecutive ports are occupied, resolution fails. -/
theorem C5_port_policy (rt : Mkdb.Runtime) (s : Mkdb.Store) (a : Mkdb.StartArgs)
    (generated : String) (key nonce : List Mkdb.Byte) (cid : String) (now : Int)
    (d p q : Nat) (ad : Mkdb.Adapter)
    (had : Mkdb.registryGet a.dbType = some ad)
    (hnc : (s.getContainer ("mkdb-" ++ a.name)).isSome = false)
    (hexp : a.explicitPort = some p) (hocc : rt.portOccupied p = true)
    (hd : rt.portOccupied d = true) :
    (Mkdb.runStart rt s a generated key nonce cid now
      = .err .portUnavailable [] s) ∧
    (Mkdb.resolveStartPort rt none d = some q →
      q ≠ d ∧ rt.portOccupied q = false ∧ d ≤ q ∧ q < d + 100 ∧
      ∀ r, d ≤ r → r < q → rt.portOccupied r = true) ∧
    ((∀ i, i < 100 → rt.portOccupied (d + i) = true) →
      Mkdb.resolveStartPort rt none d = none) := by
  refine ⟨?_, ?_, ?_⟩
  · simp [Mkdb.runStart, had, hnc, Mkdb.resolveStartPort, hexp,
      Mkdb.isPortAvailable, hocc]
  · intro hq
    simp only [Mkdb.resolveStartPort, Mkdb.isPortAvailable, hd] at hq
    rw [if_neg (by simp)] at hq
    obtain ⟨h1, h2, h3, h4⟩ :=
      Mkdb.probeFrom_eq_some rt 100 d q hq
    refine ⟨?_, h3, h1, h2, h4⟩
    intro hqd
    rw [hqd] at h3
    rw [h3] at hd
    exact Bool.false_ne_true hd
  · intro hall
    simp only [Mkdb.resolveStartPort, Mkdb.isPortAvailable, hd]
    rw [if_neg (by simp)]
    exact Mkdb.probeFrom_eq_none rt 100 d hall

/-- Witness for C5 at a concrete runtime and arguments. -/
theorem C5_port_policy_witness :
    Mkdb.runStart Mkdb.sampleRuntime Mkdb.emptyStore
      { dbType := "postgres", name := "devdb", version := "18",
        explicitPort := some 5432, ttlHours := 2, volumeType := "named",
        volumePath := "devdb", noAuthFlagSet := false, noAuthFlag := false,
        promptUseAuth := true } "pw" [] [] "cid1" 0
      = .err .portUnavailable [] Mkdb.emptyStore ∧
    (Mkdb.resolveStartPort Mkdb.sampleRuntime none 5432 = some 5433 →
      5433 ≠ 5432 ∧ Mkdb.sampleRuntime.portOccupied 5433 = false ∧
      5432 ≤ 5433 ∧ 5433 < 5432 + 100 ∧
      ∀ r, 5432 ≤ r → r < 5433 → Mkdb.sampleRuntime.portOccupied r = true) := by
  have h := C5_port_policy Mkdb.sampleRuntime Mkdb.emptyStore
    { dbType := "postgres", name := "devdb", version := "18",
      explicitPort := some 5432, ttlHours := 2, volumeType := "named",
      volumePath := "devdb", noAuthFlagSet := false, noAuthFlag := false,
      promptUseAuth := true } "pw" [] [] "cid1" 0 5432 5432 5433 .postgres
    (by rfl) (by rfl) (by rfl) (by rfl) (by rfl)
  exact ⟨h.1, h.2.1⟩

/-- C7: A create whose display name is already held by a live persisted
record fails with the conflict error before any runtime effect and with
the store untouched (record names carry the `mkdb-` name prefix over the
display name, as both creation paths write them). -/
theorem C7_duplicate_name_conflict (rt : Mkdb.Runtime) (s : Mkdb.Store)
    (a : Mkdb.StartArgs) (generated : String) (key nonce : List Mkdb.Byte)
    (cid : String) (now : Int) (ad : Mkdb.Adapter)
    (had : Mkdb.registryGet a.dbType = some ad)
    (hwf : ∀ c ∈ s.containers, c.name = "mkdb-" ++ c.displayName)
    (hdup : ∃ c ∈ s.containers, c.displayName = a.name) :
    Mkdb.runStart rt s a generated key nonce cid now = .err .conflict [] s := by
  obtain ⟨c, hc, hname⟩ := hdup
  have hfound : (s.getContainer ("mkdb-" ++ a.name)).isSome = true := by
    simp only [Mkdb.Store.getContainer, List.find?_isSome]
    exact ⟨c, hc, by simp [hwf c hc, hname]⟩
  simp [Mkdb.runStart, had, hfound]

/-- Witness for C7 at a store already holding display name `devdb`. -/
theorem C7_duplicate_name_conflict_witness :
    Mkdb.runStart Mkdb.sampleRuntime
      { containers := [{ id := 1, name := "mkdb-devdb", displayName := "devdb",
                         dbType := "postgres", version := "18", containerID := "cid0",
                         port := "5432", status := "running", createdAt := 0,
                         expiresAt := 7200000000000, volumeType := "named",
                         volumePath := "devdb" }],
        users := [], events := [] }
      { dbType := "pg", name := "devdb", version := "18", explicitPort := none,
        ttlHours := 2, volumeType := "named", volumePath := "devdb",
        noAuthFlagSet := false, noAuthFlag := false, promptUseAuth := true }
      "pw" [] [] "cid1" 0
      = .err .conflict []
        { containers := [{ id := 1, name := "mkdb-devdb", displayName := "devdb",
                           dbType := "postgres", version := "18", containerID := "cid0",
                           port := "5432", status := "running", createdAt := 0,
                           expiresAt := 7200000000000, volumeType := "named",
                           volumePath := "devdb" }],
          users := [], events := [] } :=
  C7_duplicate_name_conflict Mkdb.sampleRuntime _ _ "pw" [] [] "cid1" 0 .postgres
    (by rfl) (by decide)
    ⟨{ id := 1, name := "mkdb-devdb", displayName := "devdb", dbType := "postgres",
       version := "18", containerID := "cid0", port := "5432", status := "running",
       createdAt := 0, expiresAt := 7200000000000, volumeType := "named",
       volumePath := "devdb" }, by decide, by decide⟩

/-- C8: Redis user management: the adapter returns no command for user
creation, user deletion or password rotation, so each operation fails with
an error naming it unsupported for `redis`, and no command is handed to
`ExecInContainer` (the error carries none). -/
theorem C8_redis_user_mgmt_unsupported (username password newPassword dbName : String) :
    Mkdb.dockerCreateUser "redis" username password dbName
      = .error "user creation not supported for redis" ∧
    Mkdb.dockerDeleteUser "redis" username dbName
      = .error "user deletion not supported for redis" ∧
    Mkdb.dockerRotatePassword "redis" username newPassword dbName
      = .error "password rotation not supported for redis" :=
  ⟨rfl, rfl, rfl⟩

/-- C3 (amended): Confirmed removal of an expired record (and manual
remove) with a live runtime container and a volume reference: the trace
stops then removes the runtime container, issues the Docker volume-removal
call for the volume reference — which removes only Docker-managed volume
objects and leaves the bind-mounted named-volume directory on disk in
place — appends the `expired` (cleanup) or `deleted` (manual) event, and
only then deletes the record row; the named-volume directories of the host
are unchanged by both paths. -/
theorem C3_remove_trace (rt : Mkdb.Runtime) (host : Mkdb.HostState)
    (s : Mkdb.Store) (c : Mkdb.Container) (now : Int)
    (hcid : ¬ c.containerID = "") (hex : rt.containerExists c.containerID = true)
    (hvol : ¬ c.volumePath = "") :
    Mkdb.cleanupContainer rt host s c now =
      ([Mkdb.Effect.stopContainer c.containerID,
        Mkdb.Effect.removeContainer c.containerID,
        Mkdb.Effect.removeVolume c.volumePath,
        Mkdb.Effect.createEventRow
          ⟨0, c.id, "expired", now, "Container automatically expired and cleaned up"⟩,
        Mkdb.Effect.deleteContainerRow c.id],
       { host with dockerVolumes := Mkdb.dockerRemoveVolume host.dockerVolumes c.volumePath },
       (s.createEvent
          ⟨0, c.id, "expired", now,
           "Container automatically expired and cleaned up"⟩).deleteContainer c.id) ∧
    (Mkdb.cleanupContainer rt host s c now).2.1.volumeDirs = host.volumeDirs ∧
    Mkdb.runRm rt host s c now =
      ([Mkdb.Effect.stopContainer c.containerID,
        Mkdb.Effect.removeContainer c.containerID,
        Mkdb.Effect.removeVolume c.volumePath,
        Mkdb.Effect.createEventRow ⟨0, c.id, "deleted", now, "Container deleted by user"⟩,
        Mkdb.Effect.deleteContainerRow c.id],
       { host with dockerVolumes := Mkdb.dockerRemoveVolume host.dockerVolumes c.volumePath },
       (s.createEvent
          ⟨0, c.id, "deleted", now, "Container deleted by user"⟩).deleteContainer c.id) ∧
    (Mkdb.runRm rt host s c now).2.1.volumeDirs = host.volumeDirs := by
  refine ⟨?_, ?_, ?_, ?_⟩
  · simp [Mkdb.cleanupContainer, hcid, hex, hvol]
  · simp [Mkdb.cleanupContainer, hcid, hex, hvol]
  · simp [Mkdb.runRm, hcid, hex, hvol]
  · simp [Mkdb.runRm, hcid, hex, hvol]

/-- Counterexample to C3 as stated: at a concrete removal of a record with
named volume `devdb` whose directory exists on disk, both the expiration
cleanup and the manual remove leave the directory in place — the
container's named volume is not deleted. -/
theorem C3_named_volume_survives :
    "devdb" ∈ (Mkdb.cleanupContainer Mkdb.sampleRuntime
      { dockerVolumes := [], volumeDirs := ["devdb"] } Mkdb.emptyStore
      { id := 1, name := "mkdb-devdb", displayName := "devdb", dbType := "postgres",
        version := "18", containerID := "cid0", port := "5432", status := "running",
        createdAt := 0, expiresAt := 10, volumeType := "named",
        volumePath := "devdb" } 99).2.1.volumeDirs ∧
    "devdb" ∈ (Mkdb.runRm Mkdb.sampleRuntime
      { dockerVolumes := [], volumeDirs := ["devdb"] } Mkdb.emptyStore
      { id := 1, name := "mkdb-devdb", displayName := "devdb", dbType := "postgres",
        version := "18", containerID := "cid0", port := "5432", status := "running",
        createdAt := 0, expiresAt := 10, volumeType := "named",
        volumePath := "devdb" } 99).2.1.volumeDirs := by
  decide

/-- Witness for C3 at a concrete record, runtime and host state. -/
theorem C3_remove_trace_witness :
    Mkdb.cleanupContainer Mkdb.sampleRuntime
      { dockerVolumes := [], volumeDirs := ["devdb"] } Mkdb.emptyStore
      { id := 1, name := "mkdb-devdb", displayName := "devdb", dbType := "postgres",
        version := "18", containerID := "cid0", port := "5432", status := "running",
        createdAt := 0, expiresAt := 10, volumeType := "named",
        volumePath := "devdb" } 99 =
      ([Mkdb.Effect.stopContainer "cid0", Mkdb.Effect.removeContainer "cid0",
        Mkdb.Effect.removeVolume "devdb",
        Mkdb.Effect.createEventRow
          ⟨0, 1, "expired", 99, "Container automatically expired and cleaned up"⟩,
        Mkdb.Effect.deleteContainerRow 1],
       { dockerVolumes := Mkdb.dockerRemoveVolume [] "devdb", volumeDirs := ["devdb"] },
       (Mkdb.emptyStore.createEvent
          ⟨0, 1, "expired", 99,
           "Container automatically expired and cleaned up"⟩).deleteContainer 1) ∧
    (Mkdb.cleanupContainer Mkdb.sampleRuntime
      { dockerVolumes := [], volumeDirs := ["devdb"] } Mkdb.emptyStore
      { id := 1, name := "mkdb-devdb", displayName := "devdb", dbType := "postgres",
        version := "18", containerID := "cid0", port := "5432", status := "running",
        createdAt := 0, expiresAt := 10, volumeType := "named",
        volumePath := "devdb" } 99).2.1.volumeDirs = ["devdb"] := by
  have h := C3_remove_trace Mkdb.sampleRuntime
    { dockerVolumes := [], volumeDirs := ["devdb"] } Mkdb.emptyStore
    { id := 1, name := "mkdb-devdb", displayName := "devdb", dbType := "postgres",
      version := "18", containerID := "cid0", port := "5432", status := "running",
      createdAt := 0, expiresAt := 10, volumeType := "named",
      volumePath := "devdb" } 99 (by decide) (by decide) (by decide)
  exact ⟨h.1, h.2.1⟩

/-- C2: A create in no-auth mode (the `--no-auth` flag explicitly set)
succeeds with a default-user row whose username and password hash are both
empty, and the printed connection string is formatted from empty
credentials: for postgres both userinfo fields are empty, for mysql the
passwordless root form is used, for redis the userinfo is absent. -/
theorem C2_noauth_empty_credentials (rt : Mkdb.Runtime) (s : Mkdb.Store)
    (a : Mkdb.StartArgs) (generated : String) (key nonce : List Mkdb.Byte)
    (cid : String) (now : Int) (ad : Mkdb.Adapter) (hp : Nat)
    (had : Mkdb.registryGet a.dbType = some ad)
    (hnc : (s.getContainer ("mkdb-" ++ a.name)).isSome = false)
    (hport : Mkdb.resolveStartPort rt a.explicitPort ad.defaultPort = some hp)
    (hset : a.noAuthFlagSet = true) (hflag : a.noAuthFlag = true) :
    ∃ r : Mkdb.StartOk,
      Mkdb.runStart rt s a generated key nonce cid now = .ok r ∧
      r.user.username = "" ∧ r.user.passwordHash = "" ∧
      r.connectionString
        = Mkdb.formatConnectionString ad.name "" "" "localhost" (toString hp) a.name ∧
      (ad = .postgres → r.connectionString
        = "postgresql://:@localhost:" ++ toString hp ++ "/" ++ a.name) ∧
      (ad = .mysql → r.connectionString
        = "mysql://root@tcp(localhost:" ++ toString hp ++ ")/" ++ a.name) ∧
      (ad = .redis → r.connectionString
        = "redis://localhost:" ++ toString hp ++ "/0") := by
  have hcred : Mkdb.determineCredentials a.noAuthFlagSet true a.promptUseAuth
      generated = ("", "") := by
    simp [Mkdb.determineCredentials, hset]
  simp only [Mkdb.runStart, had, hnc, Bool.false_eq_true, if_false, hport, hcred, hflag,
    not_true, eq_self_iff_true]
  refine ⟨_, rfl, rfl, rfl, rfl, ?_, ?_, ?_⟩
  · intro h
    subst h
    rfl
  · intro h
    subst h
    rfl
  · intro h
    subst h
    rfl

/-- Witness for C2: a no-auth postgres create on an empty store. -/
theorem C2_noauth_empty_credentials_witness :
    ∃ r : Mkdb.StartOk,
      Mkdb.runStart Mkdb.sampleRuntime Mkdb.emptyStore
        { dbType := "postgres", name := "devdb", version := "18",
          explicitPort := some 5433, ttlHours := 2, volumeType := "named",
          volumePath := "devdb", noAuthFlagSet := true, noAuthFlag := true,
          promptUseAuth := false } "pwunused" [] [] "cid1" 0 = .ok r ∧
      r.user.username = "" ∧ r.user.passwordHash = "" ∧
      r.connectionString
        = Mkdb.formatConnectionString "postgres" "" "" "localhost" "5433" "devdb" ∧
      (Mkdb.Adapter.postgres = .postgres → r.connectionString
        = "postgresql://:@localhost:" ++ toString 5433 ++ "/" ++ "devdb") ∧
      (Mkdb.Adapter.postgres = .mysql → r.connectionString
        = "mysql://root@tcp(localhost:" ++ toString 5433 ++ ")/" ++ "devdb") ∧
      (Mkdb.Adapter.postgres = .redis → r.connectionString
        = "redis://localhost:" ++ toString 5433 ++ "/0") :=
  C2_noauth_empty_credentials Mkdb.sampleRuntime Mkdb.emptyStore
    { dbType := "postgres", name := "devdb", version := "18",
      explicitPort := some 5433, ttlHours := 2, volumeType := "named",
      volumePath := "devdb", noAuthFlagSet := true, noAuthFlag := true,
      promptUseAuth := false } "pwunused" [] [] "cid1" 0 .postgres 5433
    (by rfl) (by rfl) (by rfl) (by rfl) (by rfl)

/-- C9: A record created with the `--no-auth` flag stores an empty password
hash; decrypting the empty string always fails (`ciphertext too short`);
hence restarting such a record once its runtime container is gone fails
with a decryption error before any recreation effect, leaving the store
unchanged. -/
theorem C9_noauth_restart_decrypt_error (rt rt2 : Mkdb.Runtime) (s s2 : Mkdb.Store)
    (a : Mkdb.StartArgs) (generated : String) (key key2 nonce : List Mkdb.Byte)
    (cid : String) (now now2 : Int) (c : Mkdb.Container) (u : Mkdb.User)
    (r : Mkdb.StartOk)
    (hflag : a.noAuthFlag = true)
    (hok : Mkdb.runStart rt s a generated key nonce cid now = .ok r)
    (hgone : ¬ (¬ c.containerID = "" ∧ rt2.containerExists c.containerID = true))
    (hu : s2.getDefaultUser c.id = some u) (huh : u.passwordHash = "") :
    r.user.passwordHash = "" ∧
    (∀ k : List Mkdb.Byte, Mkdb.Decrypt k "" = .error "ciphertext too short") ∧
    Mkdb.runRestart rt2 s2 c key2 now2
      = .err "failed to decrypt password: ciphertext too short" [] s2 := by
  refine ⟨?_, fun k => rfl, ?_⟩
  · simp only [Mkdb.runStart, hflag, not_true] at hok
    split at hok
    · exact absurd hok (by simp)
    · split at hok
      · exact absurd hok (by simp)
      · split at hok
        · exact absurd hok (by simp)
        · obtain rfl : _ = r := by simpa using hok
          simp
  · unfold Mkdb.runRestart
    rw [if_neg hgone]
    simp only [hu, huh]
    rfl

/-- Witness for C9: a concrete no-auth create followed by a restart whose
runtime container is gone. -/
theorem C9_noauth_restart_decrypt_error_witness :
    ({ effects := [Mkdb.Effect.createContainer "postgres" "devdb" "" "" 5433 "named" "devdb"],
       store :=
         { containers := [{ id := 1, name := "mkdb-devdb", displayName := "devdb",
                            dbType := "postgres", version := "18", containerID := "cid1",
                            port := "5433", status := "running", createdAt := 0,
                            expiresAt := 7200000000000, volumeType := "named",
                            volumePath := "devdb" }],
           users := [{ id := 0, contID := 1, username := "", passwordHash := "",
                       isDefault := true, createdAt := 0 }],
           events := [{ id := 0, contID := 1, eventType := "created", timestamp := 0,
                        details := "Container created" }] },
       connectionString := "postgresql://:@localhost:5433/devdb",
       user := { id := 0, contID := 1, username := "", passwordHash := "",
                 isDefault := true, createdAt := 0 },
       container := { id := 1, name := "mkdb-devdb", displayName := "devdb",
                      dbType := "postgres", version := "18", containerID := "cid1",
                      port := "5433", status := "running", createdAt := 0,
                      expiresAt := 7200000000000, volumeType := "named",
                      volumePath := "devdb" } } : Mkdb.StartOk).user.passwordHash = "" ∧
    (∀ k : List Mkdb.Byte, Mkdb.Decrypt k "" = .error "ciphertext too short") ∧
    Mkdb.runRestart Mkdb.sampleRuntime
      { containers := [{ id := 1, name := "mkdb-devdb", displayName := "devdb",
                         dbType := "postgres", version := "18", containerID := "",
                         port := "5433", status := "stopped", createdAt := 0,
                         expiresAt := 7200000000000, volumeType := "named",
                         volumePath := "devdb" }],
        users := [{ id := 0, contID := 1, username := "", passwordHash := "",
                    isDefault := true, createdAt := 0 }],
        events := [] }
      { id := 1, name := "mkdb-devdb", displayName := "devdb", dbType := "postgres",
        version := "18", containerID := "", port := "5433", status := "stopped",
        createdAt := 0, expiresAt := 7200000000000, volumeType := "named",
        volumePath := "devdb" } [] 9
      = .err "failed to decrypt password: ciphertext too short" []
        { containers := [{ id := 1, name := "mkdb-devdb", displayName := "devdb",
                           dbType := "postgres", version := "18", containerID := "",
                           port := "5433", status := "stopped", createdAt := 0,
                           expiresAt := 7200000000000, volumeType := "named",
                           volumePath := "devdb" }],
          users := [{ id := 0, contID := 1, username := "", passwordHash := "",
                      isDefault := true, createdAt := 0 }],
          events := [] } :=
  C9_noauth_restart_decrypt_error Mkdb.sampleRuntime Mkdb.sampleRuntime
    Mkdb.emptyStore
    { containers := [{ id := 1, name := "mkdb-devdb", displayName := "devdb",
                       dbType := "postgres", version := "18", containerID := "",
                       port := "5433", status := "stopped", createdAt := 0,
                       expiresAt := 7200000000000, volumeType := "named",
                       volumePath := "devdb" }],
      users := [{ id := 0, contID := 1, username := "", passwordHash := "",
                  isDefault := true, createdAt := 0 }],
      events := [] }
    { dbType := "postgres", name := "devdb", version := "18",
      explicitPort := some 5433, ttlHours := 2, volumeType := "named",
      volumePath := "devdb", noAuthFlagSet := true, noAuthFlag := true,
      promptUseAuth := false } "pwunused" [] [] [] "cid1" 0 9
    { id := 1, name := "mkdb-devdb", displayName := "devdb", dbType := "postgres",
      version := "18", containerID := "", port := "5433", status := "stopped",
      createdAt := 0, expiresAt := 7200000000000, volumeType := "named",
      volumePath := "devdb" }
    { id := 0, contID := 1, username := "", passwordHash := "",
      isDefault := true, createdAt := 0 }
    { effects := [Mkdb.Effect.createContainer "postgres" "devdb" "" "" 5433 "named" "devdb"],
      store :=
        { containers := [{ id := 1, name := "mkdb-devdb", displayName := "devdb",
                           dbType := "postgres", version := "18", containerID := "cid1",
                           port := "5433", status := "running", createdAt := 0,
                           expiresAt := 7200000000000, volumeType := "named",
                           volumePath := "devdb" }],
          users := [{ id := 0, contID := 1, username := "", passwordHash := "",
                      isDefault := true, createdAt := 0 }],
          events := [{ id := 0, contID := 1, eventType := "created", timestamp := 0,
                       details := "Container created" }] },
      connectionString := "postgresql://:@localhost:5433/devdb",
      user := { id := 0, contID := 1, username := "", passwordHash := "",
                isDefault := true, createdAt := 0 },
      container := { id := 1, name := "mkdb-devdb", displayName := "devdb",
                     dbType := "postgres", version := "18", containerID := "cid1",
                     port := "5433", status := "running", createdAt := 0,
                     expiresAt := 7200000000000, volumeType := "named",
                     volumePath := "devdb" } }
    (by rfl) (by decide) (by decide) (by decide) (by rfl)

/-- C10: A successful restore of an orphaned volume writes a record with
volume type `named` and volume path equal to the volume's directory name,
while the runtime container is created with a bind mount to the orphaned
path; as a result the directory name is referenced by an active record and
is excluded from subsequent orphan scans. -/
theorem C10_restore_named_reference (rt : Mkdb.Runtime) (s : Mkdb.Store)
    (vol : Mkdb.OrphanVolume) (dbType version : String) (explicitPort : Option Nat)
    (ttl : Int) (key nonce : List Mkdb.Byte) (cid : String) (now : Int)
    (ad : Mkdb.Adapter) (hp : Nat) (dirs : List String)
    (had : Mkdb.registryGet dbType = some ad)
    (hnc : (s.getContainer ("mkdb-" ++ vol.name)).isSome = false)
    (hport : Mkdb.resolveStartPort rt explicitPort ad.defaultPort = some hp)
    (hvn : ¬ vol.name = "") :
    ∃ r : Mkdb.StartOk,
      Mkdb.runRestore rt s vol dbType version explicitPort ttl key nonce cid now
        = .ok r ∧
      r.container.volumeType = "named" ∧
      r.container.volumePath = vol.name ∧
      r.effects = [Mkdb.Effect.createContainer ad.name vol.name Mkdb.defaultUsername
        Mkdb.defaultPassword hp "bind" vol.path] ∧
      vol.name ∉ Mkdb.scanOrphanedNames r.store dirs := by
  simp only [Mkdb.runRestore, had, hnc, Bool.false_eq_true, if_false, hport]
  refine ⟨_, rfl, rfl, rfl, rfl, ?_⟩
  intro hmem
  have hpred := (List.mem_filter.mp hmem).2
  simp only [decide_eq_true_eq] at hpred
  apply hpred
  rw [List.any_eq_true]
  refine ⟨{ id := s.nextContainerID, name := "mkdb-" ++ vol.name,
            displayName := vol.name, dbType := ad.name, version := version,
            containerID := cid, port := toString hp, status := "running",
            createdAt := now, expiresAt := now + ttl * Mkdb.nsPerHour,
            volumeType := "named", volumePath := vol.name }, ?_, ?_⟩
  · simp only [Mkdb.Store.listContainers, Mkdb.Store.createEvent, Mkdb.Store.createUser,
      Mkdb.Store.createContainer]
    rw [List.mem_filter]
    refine ⟨List.mem_append_right _ (by simp), by simp⟩
  · simp [hvn]

/-- Witness for C10 at a concrete orphaned volume and empty store. -/
theorem C10_restore_named_reference_witness :
    ∃ r : Mkdb.StartOk,
      Mkdb.runRestore Mkdb.sampleRuntime Mkdb.emptyStore
        { name := "olddb", path := "/data/volumes/olddb" } "pg" "latest"
        (some 5433) 2 [] [] "cid2" 0 = .ok r ∧
      r.container.volumeType = "named" ∧
      r.container.volumePath = "olddb" ∧
      r.effects = [Mkdb.Effect.createContainer "postgres" "olddb" Mkdb.defaultUsername
        Mkdb.defaultPassword 5433 "bind" "/data/volumes/olddb"] ∧
      "olddb" ∉ Mkdb.scanOrphanedNames r.store ["olddb", "otherdb"] :=
  C10_restore_named_reference Mkdb.sampleRuntime Mkdb.emptyStore
    { name := "olddb", path := "/data/volumes/olddb" } "pg" "latest" (some 5433) 2
    [] [] "cid2" 0 .postgres 5433 ["olddb", "otherdb"]
    (by rfl) (by rfl) (by rfl) (by decide)
